import Mathlib

/-!
Verification of the `goog.ui.Dialog` widget
(`src/static/js/closure/goog/ui/dialog.js`): a shallow embedding of the
dialog's visibility state machine, its keyboard and click handlers, and the
`ButtonSet` ordered key-to-caption registry, together with theorems about the
behaviour described in the specification.

Event dispatch (`goog.events`, external to the repository) is modelled by a
`canceler` oracle: `canceler ev = true` means some listener canceled the
event, in which case `dispatchEvent` returns `false` in the source.  Browser
quirks (`goog.userAgent.GECKO`) are modelled by an explicit `gecko` flag.
-/

set_option linter.unusedVariables false

namespace GoogUi

/-- Events dispatched by the dialog.  `select` models `goog.ui.Dialog.Event`
(lines 1206-1210: type SELECT, carrying the button key and caption);
`afterHide` models the AFTER_HIDE event (line 1238). -/
inductive DialogEvent where
  | select (key : String) (caption : Option String)
  | afterHide
deriving DecidableEq

/-- Modelled from the spec: the key-to-caption registry of
`goog.ui.Dialog.ButtonSet` inherits from `goog.structs.Map`, which belongs to
the external DOM toolkit and is not in this repository.  The spec (sections 3
and 4.2) describes it as an ordered mapping preserving insertion order, with
`set` updating an existing entry in place.  Entries are an association list in
insertion order; `mapSet` replaces the caption of an existing key in place and
appends a new key at the end. -/
def mapSet : List (String × String) → String → String → List (String × String)
  | [], k, v => [(k, v)]
  | (k0, v0) :: rest, k, v =>
    if k0 = k then (k, v) :: rest else (k0, v0) :: mapSet rest k v

/-- Modelled from the spec: lookup in the ordered key-to-caption mapping
(`goog.structs.Map.prototype.get`); `none` models JS `undefined` for an
absent key. -/
def mapGet : List (String × String) → String → Option String
  | [], _ => none
  | (k0, v0) :: rest, k => if k0 = k then some v0 else mapGet rest k

/-- JS truthiness of an optional key string: `null`/`undefined` and the empty
string are falsy.  Used wherever the source tests a key with `if (key)` or
`key && ...`. -/
def keyTruthy : Option String → Bool
  | none => false
  | some s => s != ""

/-- JS `String(x)` applied to an optional caption, as in
`String(buttonSet.get(key))` (line 1141): `undefined` stringifies to
`"undefined"`. -/
def jsStringOfOpt : Option String → String
  | none => "undefined"
  | some s => s

/-- A button set: the ordered key-to-caption entries plus the optional default
and cancel keys (`goog.ui.Dialog.ButtonSet`, lines 1250-1288;
`defaultButton_` and `cancelButton_` default to null). -/
structure ButtonSet where
  entries : List (String × String)
  defaultButton : Option String
  cancelButton : Option String
deriving DecidableEq

/-- A freshly constructed button set (constructor lines 1250-1254). -/
def ButtonSet.empty : ButtonSet :=
  { entries := [], defaultButton := none, cancelButton := none }

/-- `goog.ui.Dialog.ButtonSet.prototype.set` (lines 1305-1317): stores the
caption under the key, then overwrites the default key when `isDefault` is
truthy and the cancel key when `isCancel` is truthy. -/
def ButtonSet.set (bs : ButtonSet) (key caption : String)
    (isDefault isCancel : Bool) : ButtonSet :=
  { entries := mapSet bs.entries key caption
    defaultButton := if isDefault then some key else bs.defaultButton
    cancelButton := if isCancel then some key else bs.cancelButton }

/-- `goog.ui.Dialog.ButtonSet.prototype.setDefault` (lines 1386-1388):
assigns the default key without any validation. -/
def ButtonSet.setDefault (bs : ButtonSet) (key : Option String) : ButtonSet :=
  { bs with defaultButton := key }

/-- `goog.ui.Dialog.ButtonSet.prototype.getDefault` (lines 1395-1397). -/
def ButtonSet.getDefault (bs : ButtonSet) : Option String :=
  bs.defaultButton

/-- `goog.ui.Dialog.ButtonSet.prototype.setCancel` (lines 1404-1406):
assigns the cancel key without any validation. -/
def ButtonSet.setCancel (bs : ButtonSet) (key : Option String) : ButtonSet :=
  { bs with cancelButton := key }

/-- `goog.ui.Dialog.ButtonSet.prototype.getCancel` (lines 1413-1415). -/
def ButtonSet.getCancel (bs : ButtonSet) : Option String :=
  bs.cancelButton

/-- Inherited `goog.structs.Map.prototype.get` on a button set. -/
def ButtonSet.get (bs : ButtonSet) (key : String) : Option String :=
  mapGet bs.entries key

/-- The list of registered keys of a button set, in insertion order. -/
def keysOf (bs : ButtonSet) : List String :=
  bs.entries.map Prod.fst

/-- A button element produced by `ButtonSet.prototype.render`
(lines 1333-1345): `createDom('button', {'name': key}, caption)`, with the
class name set only on the default button. -/
structure RenderedButton where
  name : String
  caption : String
  className : String
deriving DecidableEq

/-- `goog.getCssName(this.class_, 'default')` with `class_ = 'goog-buttonset'`
(lines 1263, 1340). -/
def defaultClassName : String := "goog-buttonset-default"

/-- `goog.ui.Dialog.ButtonSet.prototype.render` (lines 1333-1345): empties the
container, then appends one button per entry in map order, giving the button
whose key equals the default key the distinguishing class name. -/
def ButtonSet.render (bs : ButtonSet) : List RenderedButton :=
  bs.entries.foldl
    (fun acc kv =>
      acc ++ [{ name := kv.1, caption := kv.2,
                className :=
                  if bs.defaultButton = some kv.1 then defaultClassName
                  else "" }])
    []

/-- A `<button>` DOM element inside the dialog's button container as observed
by `getButton`/`getAllButtons` (lines 1423-1440) and the keydown handler. -/
structure DomButton where
  name : String
  id : String
  disabled : Bool
deriving DecidableEq

/-- The DOM buttons produced by attaching a button set to the dialog's button
container (`attachToElement` + `render`): name set from the key, no id, not
disabled. -/
def ButtonSet.renderDom (bs : ButtonSet) : List DomButton :=
  bs.render.map (fun b => { name := b.name, id := "", disabled := false })

/-- `goog.ui.Dialog.ButtonSet.prototype.getButton` (lines 1423-1431): the
first button whose name or id equals the key. -/
def getButtonIn (doms : List DomButton) (key : String) : Option DomButton :=
  doms.find? (fun b => b.name == key || b.id == key)

/-- Where the document focus is, as far as the dialog logic observes it. -/
inductive FocusTarget where
  | element
  | button (name : String)
  | other
deriving DecidableEq

/-- The dialog state observed by the claims: visibility, rendering status, the
button set and its rendered DOM buttons, the dispose-on-hide flag, the
listeners attached by `setVisible`/`enterDocument`, the disposed flag and the
focus position. -/
structure DialogState where
  visible : Bool
  inDocument : Bool
  hasElement : Bool
  buttons : Option ButtonSet
  domButtons : List DomButton
  disposeOnHide : Bool
  keydownListener : Bool
  resizeListener : Bool
  clickListener : Bool
  disposed : Bool
  focus : FocusTarget
deriving DecidableEq

/-- The fatal usage errors of `goog.ui.Component.Error` thrown by the dialog
(lines 577, 619). -/
inductive ComponentError where
  | alreadyRendered
  | notSupported
deriving DecidableEq

/-- `goog.ui.Dialog.prototype.render` (lines 571-592): throws
ALREADY_RENDERED when the component is already in the document (before any
mutation); otherwise creates the DOM if needed (`createDom`, lines 485-519,
which renders the button set into the button container) and enters the
document.  The error component of the result models the thrown exception. -/
def Dialog.render (s : DialogState) : Option ComponentError × DialogState :=
  if s.inDocument then (some ComponentError.alreadyRendered, s)
  else
    let s1 :=
      if s.hasElement then s
      else
        { s with hasElement := true,
                 domButtons :=
                   match s.buttons with
                   | some bs => bs.renderDom
                   | none => [] }
    (none, { s1 with inDocument := true })

/-- `goog.ui.Dialog.prototype.renderBefore` (lines 618-620): unconditionally
throws NOT_SUPPORTED, for every sibling argument, without touching any
state. -/
def Dialog.renderBefore (s : DialogState) (sibling : Nat) :
    Option ComponentError × DialogState :=
  (some ComponentError.notSupported, s)

/-- The focus position after the show branch of `setVisible` (lines 819-854):
on Gecko the dialog element is focused first; then, if the button set has a
truthy default key, the first rendered button with that name is focused (the
WebKit/Opera temporary-input dance and the IE6 try/catch do not change the
final position in this model). -/
def showFocus (gecko : Bool) (s : DialogState) : FocusTarget :=
  let f0 := if gecko then FocusTarget.element else s.focus
  match s.buttons with
  | some bs =>
    match bs.getDefault with
    | some dk =>
      if dk != "" then
        match s.domButtons.find? (fun b => b.name == dk) with
        | some db => FocusTarget.button db.name
        | none => f0
      else f0
    | none => f0
  | none => f0

/-- The part of `showFocus` that selects a default button to focus, used to
state when the focus falls through unchanged. -/
def defaultFocusTarget (s : DialogState) : Option DomButton :=
  match s.buttons with
  | some bs =>
    match bs.getDefault with
    | some dk =>
      if dk != "" then s.domButtons.find? (fun b => b.name == dk) else none
    | none => none
  | none => none

/-- `goog.ui.Component.prototype.dispose` as reached from the hide branch of
`setVisible` (lines 862-864): marks the component disposed, exits the
document and drops the element and all handler listeners. -/
def dispose (s : DialogState) : DialogState :=
  { s with disposed := true, inDocument := false, hasElement := false,
           keydownListener := false, resizeListener := false,
           clickListener := false }

/-- `goog.ui.Dialog.prototype.setVisible` (lines 775-877): returns
immediately when the visibility already matches; otherwise lazily renders,
attaches (on show) or detaches (on hide) the keydown and resize listeners,
moves focus on show, records the new visibility, and on hide detaches the
button-click listener, dispatches AFTER_HIDE (its cancellation result is
ignored) and disposes when `disposeOnHide_` is set; on show it attaches the
button-click listener.  The second component is the list of dispatched
events, in order. -/
def Dialog.setVisible (gecko : Bool) (canceler : DialogEvent → Bool)
    (v : Bool) (s0 : DialogState) : DialogState × List DialogEvent :=
  if v = s0.visible then (s0, [])
  else
    let sR := if s0.inDocument then s0 else (Dialog.render s0).2
    let sL :=
      if v then { sR with keydownListener := true, resizeListener := true }
      else { sR with keydownListener := false, resizeListener := false }
    let sF := if v then { sL with focus := showFocus gecko sL } else sL
    let sV := { sF with visible := v }
    if v then
      ({ sV with clickListener := true }, [])
    else
      let sH := { sV with clickListener := false }
      if sH.disposeOnHide then (dispose sH, [DialogEvent.afterHide])
      else (sH, [DialogEvent.afterHide])

/-- `goog.ui.Dialog.prototype.onButtonClick_` (lines 1057-1067): the click
target resolved through `findParentButton_` is given as an optional button
element.  When it resolves to an enabled button, one SELECT event with the
button's name and registered caption is dispatched, and the dialog is hidden
only when no listener cancels it.  `none` as a result models the uncaught JS
TypeError when `getButtonSet()` is null. -/
def Dialog.onButtonClick (gecko : Bool) (canceler : DialogEvent → Bool)
    (btn : Option DomButton) (s : DialogState) :
    Option (DialogState × List DialogEvent) :=
  match btn with
  | some b =>
    if !b.disabled then
      match s.buttons with
      | none => none
      | some bs =>
        let ev := DialogEvent.select b.name (bs.get b.name)
        if !canceler ev then
          let hidden := Dialog.setVisible gecko canceler false s
          some (hidden.1, ev :: hidden.2)
        else some (s, [ev])
    else some (s, [])
  | none => some (s, [])

/-- Key codes distinguished by `onKeyDown_` (lines 1099, 1117, 1143). -/
inductive Key where
  | esc
  | enter
  | tab
  | other
deriving DecidableEq

/-- The event target of a keydown as observed by `onKeyDown_`: its tag name,
disabled flag, name attribute, and whether it is the dialog root element. -/
structure EventTarget where
  tagName : String
  disabled : Bool
  name : String
  isDialogRoot : Bool
deriving DecidableEq

/-- The "special form element" test of the ESC branch (lines 1104-1105):
an enabled SELECT element. -/
def isSpecialEsc (t : EventTarget) : Bool :=
  t.tagName == "SELECT" && !t.disabled

/-- The "special form element" test of the ENTER branch (lines 1130-1132):
an enabled TEXTAREA or SELECT element. -/
def isSpecialEnter (t : EventTarget) : Bool :=
  (t.tagName == "TEXTAREA" || t.tagName == "SELECT") && !t.disabled

/-- The key selected by the ENTER branch of `onKeyDown_` (lines 1118-1137):
a BUTTON target contributes its name; otherwise the default key is chosen
only when it is truthy, its rendered button exists and is enabled, and the
target is not an enabled TEXTAREA/SELECT. -/
def Dialog.enterKey (target : EventTarget) (s : DialogState) :
    Option String :=
  if target.tagName == "BUTTON" then some target.name
  else
    match s.buttons with
    | some bs =>
      match bs.getDefault with
      | some dk =>
        if dk != "" then
          match getButtonIn s.domButtons dk with
          | some db =>
            if !db.disabled && !isSpecialEnter target then some dk
            else none
          | none => none
        else none
      | none => none
    | none => none

/-- `goog.ui.Dialog.prototype.onKeyDown_` (lines 1094-1159).  ESC: when the
button set has a truthy cancel key and the target is not an enabled SELECT,
the cancel SELECT event is dispatched and the dialog closes iff it is not
canceled; when the cancel key is falsy and the target is not an enabled
SELECT, the dialog closes without a SELECT event; an enabled SELECT target
swallows the key entirely.  ENTER: a BUTTON target contributes its name as
the key; otherwise the default key fires only when its rendered button exists
and is enabled and the target is not an enabled TEXTAREA/SELECT; a truthy key
dispatches the SELECT event (with stringified caption) and closes iff not
canceled.  TAB only stops propagation.  `none` models the uncaught JS
TypeError of `buttonSet.get` when the button set is null but a BUTTON target
supplied a truthy key. -/
def Dialog.onKeyDown (gecko : Bool) (canceler : DialogEvent → Bool)
    (keyCode : Key) (shiftKey : Bool) (target : EventTarget)
    (s : DialogState) : Option (DialogState × List DialogEvent) :=
  match keyCode with
  | Key.esc =>
    let cancelKey : Option String :=
      match s.buttons with
      | some bs => bs.getCancel
      | none => none
    if keyTruthy cancelKey && !isSpecialEsc target then
      match s.buttons with
      | some bs =>
        let ck := cancelKey.getD ""
        let ev := DialogEvent.select ck (bs.get ck)
        if !canceler ev then
          let hidden := Dialog.setVisible gecko canceler false s
          some (hidden.1, ev :: hidden.2)
        else some (s, [ev])
      | none => some (s, [])
    else if !isSpecialEsc target then
      let hidden := Dialog.setVisible gecko canceler false s
      some (hidden.1, hidden.2)
    else some (s, [])
  | Key.enter =>
    let keyOpt : Option String := Dialog.enterKey target s
    if keyTruthy keyOpt then
      match s.buttons with
      | none => none
      | some bs =>
        let k := keyOpt.getD ""
        let ev := DialogEvent.select k (some (jsStringOfOpt (bs.get k)))
        if !canceler ev then
          let hidden := Dialog.setVisible gecko canceler false s
          some (hidden.1, ev :: hidden.2)
        else some (s, [ev])
    else some (s, [])
  | Key.tab => some (s, [])
  | Key.other => some (s, [])

/-- `goog.ui.Dialog.prototype.onTitleCloseClick_` (lines 963-975): with a
truthy cancel key, dispatches the cancel SELECT event and hides iff not
canceled; otherwise hides directly. -/
def Dialog.onTitleCloseClick (gecko : Bool) (canceler : DialogEvent → Bool)
    (s : DialogState) : DialogState × List DialogEvent :=
  let keyOpt : Option String :=
    match s.buttons with
    | some bs => bs.getCancel
    | none => none
  if keyTruthy keyOpt then
    match s.buttons with
    | some bs =>
      let k := keyOpt.getD ""
      let ev := DialogEvent.select k (bs.get k)
      if !canceler ev then
        let hidden := Dialog.setVisible gecko canceler false s
        (hidden.1, ev :: hidden.2)
      else (s, [ev])
    | none => (s, [])
  else
    Dialog.setVisible gecko canceler false s

/-- Test for a SELECT event in a dispatched event trace. -/
def isSelect : DialogEvent → Bool
  | DialogEvent.select _ _ => true
  | DialogEvent.afterHide => false

/-- The SELECT events of a dispatched event trace, in order. -/
def selectEvents (evs : List DialogEvent) : List DialogEvent :=
  evs.filter isSelect

/-- An operation on a button set, for stating properties of arbitrary
operation sequences. -/
inductive ButtonSetOp where
  | set (key caption : String) (isDefault isCancel : Bool)
  | setDefault (key : Option String)
  | setCancel (key : Option String)
deriving DecidableEq

/-- Applies one button-set operation. -/
def applyOp (bs : ButtonSet) : ButtonSetOp → ButtonSet
  | ButtonSetOp.set k c d cl => bs.set k c d cl
  | ButtonSetOp.setDefault k => bs.setDefault k
  | ButtonSetOp.setCancel k => bs.setCancel k

/-- Applies a sequence of button-set operations from left to right. -/
def applyOps (bs : ButtonSet) (ops : List ButtonSetOp) : ButtonSet :=
  ops.foldl applyOp bs

/-- The keys passed to `set` calls of an operation sequence, in order. -/
def insertedKeys : List ButtonSetOp → List String
  | [] => []
  | ButtonSetOp.set k _ _ _ :: rest => k :: insertedKeys rest
  | _ :: rest => insertedKeys rest

/-- The first-insertion order of a key sequence: each key appears once, at
the position of its first occurrence. -/
def firstInsertOrder (ks : List String) : List String :=
  ks.foldl (fun acc k => if k ∈ acc then acc else acc ++ [k]) []

/-- Whether an optional key, when set, is registered in the button set. -/
def keyOk (bs : ButtonSet) : Option String → Bool
  | none => true
  | some k => decide (k ∈ keysOf bs)

/-- The invariant claimed by the spec for a button set: the default and
cancel keys, when set, reference registered keys. -/
def keyInvariantB (bs : ButtonSet) : Bool :=
  keyOk bs bs.defaultButton && keyOk bs bs.cancelButton

theorem mapGet_mapSet_self (m : List (String × String)) (k v : String) :
    mapGet (mapSet m k v) k = some v := by
  induction m with
  | nil => simp [mapSet, mapGet]
  | cons p rest ih =>
    obtain ⟨k0, v0⟩ := p
    by_cases h : k0 = k
    · simp [mapSet, mapGet, h]
    · simp [mapSet, mapGet, h, ih]

theorem mapGet_mapSet_ne (m : List (String × String)) (k v k' : String)
    (h : k' ≠ k) : mapGet (mapSet m k v) k' = mapGet m k' := by
  induction m with
  | nil => simp [mapSet, mapGet, Ne.symm h]
  | cons p rest ih =>
    obtain ⟨k0, v0⟩ := p
    by_cases h0 : k0 = k
    · subst h0
      simp [mapSet, mapGet, Ne.symm h]
    · simp [mapSet, mapGet, h0, ih]

theorem keys_mapSet (m : List (String × String)) (k v : String) :
    (mapSet m k v).map Prod.fst =
      if k ∈ m.map Prod.fst then m.map Prod.fst
      else m.map Prod.fst ++ [k] := by
  induction m with
  | nil => simp [mapSet]
  | cons p rest ih =>
    obtain ⟨k0, v0⟩ := p
    by_cases h : k0 = k
    · subst h
      simp [mapSet]
    · by_cases hm : k ∈ rest.map Prod.fst <;>
        simp [mapSet, h, ih, hm, Ne.symm h]

theorem mem_keys_mapSet (m : List (String × String)) (k v a : String) :
    a ∈ (mapSet m k v).map Prod.fst ↔ a ∈ m.map Prod.fst ∨ a = k := by
  rw [keys_mapSet]
  by_cases h : k ∈ m.map Prod.fst
  · rw [if_pos h]
    constructor
    · exact Or.inl
    · rintro (ha | rfl)
      · exact ha
      · exact h
  · rw [if_neg h]
    simp

theorem keyOk_iff (bs : ButtonSet) (o : Option String) :
    keyOk bs o = true ↔ ∀ k, o = some k → k ∈ keysOf bs := by
  cases o <;> simp [keyOk]

theorem keyInvariantB_iff (bs : ButtonSet) :
    keyInvariantB bs = true ↔
      (∀ k, bs.defaultButton = some k → k ∈ keysOf bs) ∧
      (∀ k, bs.cancelButton = some k → k ∈ keysOf bs) := by
  simp [keyInvariantB, Bool.and_eq_true, keyOk_iff]

theorem keysOf_set (bs : ButtonSet) (k c : String) (d cl : Bool) :
    keysOf (bs.set k c d cl) =
      if k ∈ keysOf bs then keysOf bs else keysOf bs ++ [k] :=
  keys_mapSet bs.entries k c

theorem mem_keysOf_set (bs : ButtonSet) (k c : String) (d cl : Bool)
    (a : String) :
    a ∈ keysOf (bs.set k c d cl) ↔ a ∈ keysOf bs ∨ a = k :=
  mem_keys_mapSet bs.entries k c a

/-- C5 counterexample: `setDefault` assigns the key unchecked (line 1387), so
on an empty button set `setDefault('ok')` leaves the default key pointing at a
key that is not in the mapping, falsifying the claim that the invariant holds
after every `setDefault` call. -/
theorem c5_counterexample :
    (ButtonSet.empty.setDefault (some "ok")).getDefault = some "ok" ∧
    keysOf (ButtonSet.empty.setDefault (some "ok")) = [] ∧
    keyInvariantB (ButtonSet.empty.setDefault (some "ok")) = false := by
  decide

/-- C5 amended: after every `set` call the invariant is preserved (a flagged
key is the key just registered, and registered keys are never removed), and
`setDefault`/`setCancel` preserve it exactly when given null or an
already-registered key; they perform no validation themselves. -/
theorem c5_key_invariant :
    (∀ (bs : ButtonSet) (k c : String) (d cl : Bool),
        keyInvariantB bs = true → keyInvariantB (bs.set k c d cl) = true) ∧
    (∀ (bs : ButtonSet) (k : String), keyInvariantB bs = true →
        k ∈ keysOf bs →
        keyInvariantB (bs.setDefault (some k)) = true ∧
        keyInvariantB (bs.setCancel (some k)) = true) ∧
    (∀ bs : ButtonSet, keyInvariantB bs = true →
        keyInvariantB (bs.setDefault none) = true ∧
        keyInvariantB (bs.setCancel none) = true) := by
  refine ⟨?_, ?_, ?_⟩
  · intro bs k c d cl h
    rw [keyInvariantB_iff] at h ⊢
    obtain ⟨hdef, hcan⟩ := h
    constructor
    · intro j hj
      rw [mem_keysOf_set]
      cases d with
      | true =>
        simp only [ButtonSet.set, if_true] at hj
        exact Or.inr (Option.some.inj hj).symm
      | false =>
        simp only [ButtonSet.set, if_false] at hj
        exact Or.inl (hdef j hj)
    · intro j hj
      rw [mem_keysOf_set]
      cases cl with
      | true =>
        simp only [ButtonSet.set, if_true] at hj
        exact Or.inr (Option.some.inj hj).symm
      | false =>
        simp only [ButtonSet.set, if_false] at hj
        exact Or.inl (hcan j hj)
  · intro bs k h hk
    rw [keyInvariantB_iff] at h
    obtain ⟨hdef, hcan⟩ := h
    constructor
    · rw [keyInvariantB_iff]
      exact ⟨fun j hj => (Option.some.inj hj) ▸ hk, hcan⟩
    · rw [keyInvariantB_iff]
      exact ⟨hdef, fun j hj => (Option.some.inj hj) ▸ hk⟩
  · intro bs h
    rw [keyInvariantB_iff] at h
    obtain ⟨hdef, hcan⟩ := h
    constructor
    · rw [keyInvariantB_iff]
      exact ⟨fun j hj => Option.noConfusion hj, hcan⟩
    · rw [keyInvariantB_iff]
      exact ⟨hdef, fun j hj => Option.noConfusion hj⟩

/-- Witness for the amended C5 theorem at concrete inputs. -/
theorem c5_witness :
    (keyInvariantB (ButtonSet.empty.set "ok" "OK" true false) = true →
      keyInvariantB ((ButtonSet.empty.set "ok" "OK" true false).set
        "cancel" "Cancel" false true) = true) ∧
    keyInvariantB (ButtonSet.empty.set "ok" "OK" true false) = true :=
  ⟨fun h => c5_key_invariant.1 (ButtonSet.empty.set "ok" "OK" true false)
      "cancel" "Cancel" false true h,
   by decide⟩

/-- C10: `set` with both flags false updates only the mapping entry for the
given key: the default key and the cancel key are unchanged (lines 1309-1314
only assign them under truthy flags), the given key maps to the new caption,
and every other key keeps its caption. -/
theorem c10_set_frame (bs : ButtonSet) (k c k' : String) (hne : k' ≠ k) :
    (bs.set k c false false).defaultButton = bs.defaultButton ∧
    (bs.set k c false false).cancelButton = bs.cancelButton ∧
    (bs.set k c false false).get k = some c ∧
    (bs.set k c false false).get k' = bs.get k' :=
  ⟨rfl, rfl, mapGet_mapSet_self bs.entries k c,
   mapGet_mapSet_ne bs.entries k c k' hne⟩

/-- The OK/Cancel button set used by concrete witnesses: the "ok" entry is the
default key and the "cancel" entry is the cancel key. -/
def bsOkCancel : ButtonSet :=
  (ButtonSet.empty.set "ok" "OK" true false).set "cancel" "Cancel" false true

theorem foldl_append_singleton {α β : Type} (f : α → β) :
    ∀ (l : List α) (init : List β),
      l.foldl (fun acc x => acc ++ [f x]) init = init ++ l.map f := by
  intro l
  induction l with
  | nil => intro init; simp
  | cons x xs ih => intro init; simp [ih]

theorem render_eq_map (bs : ButtonSet) :
    bs.render = bs.entries.map (fun kv =>
      ({ name := kv.1, caption := kv.2,
         className :=
           if bs.defaultButton = some kv.1 then defaultClassName
           else "" } : RenderedButton)) := by
  unfold ButtonSet.render
  rw [foldl_append_singleton]
  simp

theorem render_names (bs : ButtonSet) :
    bs.render.map (fun b => b.name) = keysOf bs := by
  rw [render_eq_map]
  simp [keysOf]

theorem keysOf_setDefault (bs : ButtonSet) (k : Option String) :
    keysOf (bs.setDefault k) = keysOf bs := rfl

theorem keysOf_setCancel (bs : ButtonSet) (k : Option String) :
    keysOf (bs.setCancel k) = keysOf bs := rfl

theorem keysOf_applyOps (ops : List ButtonSetOp) :
    ∀ bs : ButtonSet,
      keysOf (applyOps bs ops) =
        (insertedKeys ops).foldl
          (fun acc k => if k ∈ acc then acc else acc ++ [k]) (keysOf bs) := by
  induction ops with
  | nil => intro bs; rfl
  | cons op rest ih =>
    intro bs
    cases op with
    | set k c d cl =>
      have h1 : applyOps bs (ButtonSetOp.set k c d cl :: rest)
          = applyOps (bs.set k c d cl) rest := rfl
      rw [h1, ih, keysOf_set]
      rfl
    | setDefault k =>
      have h1 : applyOps bs (ButtonSetOp.setDefault k :: rest)
          = applyOps (bs.setDefault k) rest := rfl
      rw [h1, ih, keysOf_setDefault]
      rfl
    | setCancel k =>
      have h1 : applyOps bs (ButtonSetOp.setCancel k :: rest)
          = applyOps (bs.setCancel k) rest := rfl
      rw [h1, ih, keysOf_setCancel]
      rfl

/-- C6: for every sequence of button-set operations applied to a fresh button
set, `render` emits one button per registered key, in the order the keys were
first inserted by `set` (map order is first-insertion order, independent of
the default/cancel flags carried by the entries), and a rendered button
carries the distinguishing default class name exactly when its key equals the
default key. -/
theorem c6_render_order (ops : List ButtonSetOp) :
    ((applyOps ButtonSet.empty ops).render.map (fun b => b.name)
        = firstInsertOrder (insertedKeys ops)) ∧
    (∀ b, b ∈ (applyOps ButtonSet.empty ops).render →
        (b.className = defaultClassName ↔
          (applyOps ButtonSet.empty ops).defaultButton = some b.name)) := by
  constructor
  · rw [render_names, keysOf_applyOps]
    rfl
  · intro b hb
    rw [render_eq_map] at hb
    rw [List.mem_map] at hb
    obtain ⟨kv, hkv, hbeq⟩ := hb
    subst hbeq
    by_cases h : (applyOps ButtonSet.empty ops).defaultButton = some kv.1
    · simp [h]
    · simp only [h, if_neg h, iff_false]
      intro hcontra
      exact absurd hcontra (by decide)

/-- The operation sequence used by the C6 witness: a key is re-set after
later keys were inserted, and the default/cancel flags sit on the last
entry. -/
def c6ops : List ButtonSetOp :=
  [ButtonSetOp.set "continue" "Continue" false false,
   ButtonSetOp.set "save" "Save" false false,
   ButtonSetOp.set "cancel" "Cancel" true true,
   ButtonSetOp.set "save" "Save again" false false]

/-- The rendered cancel button of the C6 witness. -/
def cancelRendered : RenderedButton :=
  { name := "cancel", caption := "Cancel", className := defaultClassName }

/-- Witness for C6 at a concrete operation sequence. -/
theorem c6_witness :
    ((applyOps ButtonSet.empty c6ops).render.map (fun b => b.name)
        = firstInsertOrder (insertedKeys c6ops)) ∧
    (cancelRendered.className = defaultClassName ↔
      (applyOps ButtonSet.empty c6ops).defaultButton
        = some cancelRendered.name) :=
  ⟨(c6_render_order c6ops).1,
   (c6_render_order c6ops).2 cancelRendered (by decide)⟩

/-- Witness for C10 at a concrete input, re-setting the key that is currently
the default key. -/
theorem c10_witness :
    ("cancel" : String) ≠ "ok" ∧
    ((bsOkCancel.set "ok" "Okay" false false).defaultButton
        = bsOkCancel.defaultButton ∧
      (bsOkCancel.set "ok" "Okay" false false).cancelButton
        = bsOkCancel.cancelButton ∧
      (bsOkCancel.set "ok" "Okay" false false).get "ok" = some "Okay" ∧
      (bsOkCancel.set "ok" "Okay" false false).get "cancel"
        = bsOkCancel.get "cancel") :=
  ⟨by decide, c10_set_frame bsOkCancel "ok" "Okay" "cancel" (by decide)⟩

theorem setVisible_noop (g : Bool) (c : DialogEvent → Bool) (v : Bool)
    (s : DialogState) (h : s.visible = v) :
    Dialog.setVisible g c v s = (s, []) := by
  unfold Dialog.setVisible
  rw [if_pos h.symm]

/-- The state reached by the hide branch of `setVisible` before the optional
disposal: visibility cleared and the keydown, resize and button-click
listeners detached. -/
def hiddenState (s : DialogState) : DialogState :=
  { s with visible := false, keydownListener := false, resizeListener := false,
           clickListener := false }

theorem setVisible_hide_eq (g : Bool) (c : DialogEvent → Bool)
    (s : DialogState) (hv : s.visible = true) (hd : s.inDocument = true) :
    Dialog.setVisible g c false s =
      (if s.disposeOnHide then dispose (hiddenState s) else hiddenState s,
       [DialogEvent.afterHide]) := by
  unfold Dialog.setVisible
  rw [if_neg (by simp [hv])]
  simp only [Bool.false_eq_true, if_false, if_pos hd]
  split <;> simp_all [hiddenState, dispose]

theorem setVisible_hide_fst_visible (g : Bool) (c : DialogEvent → Bool)
    (s : DialogState) (hv : s.visible = true) (hd : s.inDocument = true) :
    (Dialog.setVisible g c false s).1.visible = false := by
  rw [setVisible_hide_eq g c s hv hd]
  by_cases hdh : s.disposeOnHide <;> simp [hdh, dispose, hiddenState]

theorem setVisible_hide_snd (g : Bool) (c : DialogEvent → Bool)
    (s : DialogState) (hv : s.visible = true) (hd : s.inDocument = true) :
    (Dialog.setVisible g c false s).2 = [DialogEvent.afterHide] := by
  rw [setVisible_hide_eq g c s hv hd]

theorem setVisible_fst_visible (g : Bool) (c : DialogEvent → Bool) (v : Bool)
    (t : DialogState) : (Dialog.setVisible g c v t).1.visible = v := by
  unfold Dialog.setVisible
  by_cases h : v = t.visible
  · rw [if_pos h]
    exact h.symm
  · rw [if_neg h]
    cases v with
    | true => simp
    | false =>
      simp only [Bool.false_eq_true, if_false]
      split <;> split <;> simp [dispose]

/-- C9: `setVisible(v)` on a dialog whose visibility already equals `v`
returns immediately (line 776-778): the state is unchanged, no listeners are
attached or detached and no events are dispatched; consequently a second
`setVisible(v)` right after a first one is always such a no-op. -/
theorem c9_setVisible_noop (g : Bool) (c c2 : DialogEvent → Bool)
    (v : Bool) (s t : DialogState) (h : s.visible = v) :
    Dialog.setVisible g c v s = (s, []) ∧
    Dialog.setVisible g c v (Dialog.setVisible g c2 v t).1
      = ((Dialog.setVisible g c2 v t).1, []) :=
  ⟨setVisible_noop g c v s h,
   setVisible_noop g c v _ (setVisible_fst_visible g c2 v t)⟩

/-- A hidden, rendered dialog with the OK/Cancel button set, used as concrete
input by witnesses. -/
def baseState : DialogState :=
  { visible := false, inDocument := true, hasElement := true,
    buttons := some bsOkCancel, domButtons := bsOkCancel.renderDom,
    disposeOnHide := false, keydownListener := false, resizeListener := false,
    clickListener := false, disposed := false, focus := FocusTarget.other }

/-- The same dialog while visible, with the listeners `setVisible(true)`
attaches. -/
def visibleState : DialogState :=
  { baseState with visible := true, keydownListener := true,
                   resizeListener := true, clickListener := true,
                   focus := FocusTarget.button "ok" }

/-- Witness for C9 at concrete inputs. -/
theorem c9_witness :
    baseState.visible = false ∧
    (Dialog.setVisible false (fun _ => false) false baseState
        = (baseState, []) ∧
      Dialog.setVisible false (fun _ => false) false
          (Dialog.setVisible false (fun _ => true) false visibleState).1
        = ((Dialog.setVisible false (fun _ => true) false visibleState).1,
           [])) :=
  ⟨by decide,
   c9_setVisible_noop false (fun _ => false) (fun _ => true) false baseState
     visibleState (by decide)⟩

/-- C8: `render` on a dialog already in the document throws the fatal
ALREADY_RENDERED error before any mutation (lines 576-578), and
`renderBefore` throws the fatal NOT_SUPPORTED error for every sibling
argument (lines 618-620); in both error cases the dialog state is
unchanged. -/
theorem c8_render_errors (s : DialogState) (sib : Nat)
    (h : s.inDocument = true) :
    Dialog.render s = (some ComponentError.alreadyRendered, s) ∧
    Dialog.renderBefore s sib = (some ComponentError.notSupported, s) := by
  constructor
  · unfold Dialog.render
    rw [if_pos h]
  · rfl

/-- Witness for C8 at a concrete input. -/
theorem c8_witness :
    visibleState.inDocument = true ∧
    (Dialog.render visibleState
        = (some ComponentError.alreadyRendered, visibleState) ∧
      Dialog.renderBefore visibleState 0
        = (some ComponentError.notSupported, visibleState)) :=
  ⟨by decide, c8_render_errors visibleState 0 (by decide)⟩

/-- C4: hiding a visible, rendered, not-yet-disposed dialog through
`setVisible(false)` detaches the keydown and resize listeners attached on
show, dispatches the AFTER_HIDE event, and disposes the dialog exactly when
`disposeOnHide_` is set; the outcome is independent of any listener's attempt
to cancel, so AFTER_HIDE is non-cancelable. -/
theorem c4_hide_detaches_and_disposes (g : Bool)
    (c c2 : DialogEvent → Bool) (s : DialogState) (hv : s.visible = true)
    (hd : s.inDocument = true) (hnd : s.disposed = false) :
    (Dialog.setVisible g c false s).1.visible = false ∧
    (Dialog.setVisible g c false s).1.keydownListener = false ∧
    (Dialog.setVisible g c false s).1.resizeListener = false ∧
    (Dialog.setVisible g c false s).2 = [DialogEvent.afterHide] ∧
    ((Dialog.setVisible g c false s).1.disposed = true
      ↔ s.disposeOnHide = true) ∧
    Dialog.setVisible g c false s = Dialog.setVisible g c2 false s := by
  rw [setVisible_hide_eq g c s hv hd, setVisible_hide_eq g c2 s hv hd]
  by_cases hdh : s.disposeOnHide <;>
    simp [hdh, dispose, hiddenState, hnd]

/-- Witness for C4 at a concrete input with `disposeOnHide` set. -/
theorem c4_witness :
    ({ visibleState with disposeOnHide := true }.visible = true ∧
      { visibleState with disposeOnHide := true }.inDocument = true ∧
      { visibleState with disposeOnHide := true }.disposed = false) ∧
    ((Dialog.setVisible false (fun _ => true) false
        { visibleState with disposeOnHide := true }).1.visible = false ∧
      (Dialog.setVisible false (fun _ => true) false
        { visibleState with disposeOnHide := true }).1.keydownListener
          = false ∧
      (Dialog.setVisible false (fun _ => true) false
        { visibleState with disposeOnHide := true }).1.resizeListener
          = false ∧
      (Dialog.setVisible false (fun _ => true) false
        { visibleState with disposeOnHide := true }).2
          = [DialogEvent.afterHide] ∧
      ((Dialog.setVisible false (fun _ => true) false
          { visibleState with disposeOnHide := true }).1.disposed = true
        ↔ { visibleState with disposeOnHide := true }.disposeOnHide
            = true) ∧
      Dialog.setVisible false (fun _ => true) false
          { visibleState with disposeOnHide := true }
        = Dialog.setVisible false (fun _ => false) false
            { visibleState with disposeOnHide := true }) :=
  ⟨⟨by decide, by decide, by decide⟩,
   c4_hide_detaches_and_disposes false (fun _ => true) (fun _ => false)
     { visibleState with disposeOnHide := true } (by decide) (by decide)
     (by decide)⟩

theorem setVisible_show_focus (g : Bool) (c : DialogEvent → Bool)
    (s : DialogState) (hv : s.visible = false) (hd : s.inDocument = true) :
    (Dialog.setVisible g c true s).1.focus = showFocus g s := by
  unfold Dialog.setVisible
  rw [if_neg (by simp [hv])]
  simp only [if_true, if_pos hd]
  rfl

/-- The button set with no default key used by the C7 counterexample. -/
def bsNoDefault : ButtonSet :=
  ButtonSet.empty.set "ok" "OK" false false

/-- A hidden, rendered dialog whose button set has no default key, with focus
somewhere outside the dialog. -/
def sNoDefault : DialogState :=
  { visible := false, inDocument := true, hasElement := true,
    buttons := some bsNoDefault, domButtons := bsNoDefault.renderDom,
    disposeOnHide := false, keydownListener := false, resizeListener := false,
    clickListener := false, disposed := false, focus := FocusTarget.other }

/-- C7 counterexample: on a non-Gecko browser, showing a dialog whose button
set has no default key moves focus nowhere (lines 819-854 focus the dialog
root only on Gecko, and otherwise only ever focus a default button), so the
claimed fallback of focus to the dialog root element does not happen. -/
theorem c7_counterexample :
    ¬ (Dialog.setVisible false (fun _ => false) true sNoDefault).1.focus
        = FocusTarget.element := by
  decide

/-- C7 amended: after `setVisible(true)` on a hidden, rendered dialog, when
the button set has a non-empty default key whose name matches a rendered
button, that button is focused; otherwise focus goes to the dialog root
element only on Gecko (which focuses the root at the start of the show
branch) and is left unchanged on other browsers. -/
theorem c7_show_focus (g : Bool) (c : DialogEvent → Bool) (s : DialogState)
    (hv : s.visible = false) (hd : s.inDocument = true) :
    (∀ bs dk db, s.buttons = some bs → bs.getDefault = some dk → dk ≠ "" →
        s.domButtons.find? (fun b => b.name == dk) = some db →
        (Dialog.setVisible g c true s).1.focus
          = FocusTarget.button db.name) ∧
    (defaultFocusTarget s = none →
        (Dialog.setVisible g c true s).1.focus
          = (if g then FocusTarget.element else s.focus)) := by
  rw [setVisible_show_focus g c s hv hd] at *
  constructor
  · intro bs dk db hbs hdk hne hfind
    unfold showFocus
    rw [hbs]
    simp only [hdk, hfind]
    simp [hne]
  · intro hnone
    unfold defaultFocusTarget at hnone
    unfold showFocus
    cases hbs : s.buttons with
    | none => simp [hbs]
    | some bs =>
      simp only [hbs] at hnone ⊢
      cases hdk : bs.getDefault with
      | none => simp [hdk]
      | some dk =>
        simp only [hdk] at hnone ⊢
        by_cases hne : dk = ""
        · subst hne
          simp
        · have hbne : (dk != "") = true := by simp [hne]
          rw [if_pos hbne] at hnone
          simp [hbne, hnone]

/-- Witness for the amended C7 theorem: showing `baseState` (default key
"ok") focuses the rendered "ok" button. -/
theorem c7_witness :
    (baseState.visible = false ∧ baseState.inDocument = true) ∧
    (Dialog.setVisible false (fun _ => false) true baseState).1.focus
      = FocusTarget.button
          ({ name := "ok", id := "", disabled := false } : DomButton).name :=
  ⟨⟨by decide, by decide⟩,
   (c7_show_focus false (fun _ => false) baseState (by decide)
       (by decide)).1 bsOkCancel "ok"
     { name := "ok", id := "", disabled := false } (by decide) (by decide)
     (by decide) (by decide)⟩

/-- C1: for every visible, rendered dialog with a button set, a click
resolving to an enabled button element dispatches exactly one cancelable
SELECT event carrying that button's key and registered caption, and the
dialog transitions to hidden exactly when no listener cancels the event;
when the event is canceled the dialog state (its visibility included) is
unchanged. -/
theorem c1_button_click (g : Bool) (c : DialogEvent → Bool) (b : DomButton)
    (bs : ButtonSet) (s : DialogState) (hv : s.visible = true)
    (hd : s.inDocument = true) (hb : s.buttons = some bs)
    (hen : b.disabled = false) :
    ∃ s' evs, Dialog.onButtonClick g c (some b) s = some (s', evs) ∧
      selectEvents evs = [DialogEvent.select b.name (bs.get b.name)] ∧
      (s'.visible = false
        ↔ c (DialogEvent.select b.name (bs.get b.name)) = false) ∧
      (c (DialogEvent.select b.name (bs.get b.name)) = true → s' = s) := by
  unfold Dialog.onButtonClick
  simp only [hb, hen, Bool.not_false, if_true]
  cases hc : c (DialogEvent.select b.name (bs.get b.name)) with
  | false =>
    simp only [hc, Bool.not_false, if_true]
    refine ⟨(Dialog.setVisible g c false s).1, _, rfl, ?_, ?_, ?_⟩
    · rw [setVisible_hide_snd g c s hv hd]
      simp [selectEvents, isSelect]
    · simp [setVisible_hide_fst_visible g c s hv hd]
    · simp [hc]
  | true =>
    simp only [hc, Bool.not_true, if_false]
    exact ⟨s, [DialogEvent.select b.name (bs.get b.name)], rfl,
      by simp [selectEvents, isSelect], by simp [hv, hc], fun _ => rfl⟩

/-- The enabled rendered OK button used by the C1 witness. -/
def okButton : DomButton := { name := "ok", id := "", disabled := false }

/-- Witness for C1 at a concrete input with a canceler that cancels
nothing. -/
theorem c1_witness :
    (visibleState.visible = true ∧ visibleState.inDocument = true ∧
      visibleState.buttons = some bsOkCancel ∧ okButton.disabled = false) ∧
    (∃ s' evs,
      Dialog.onButtonClick false (fun _ => false) (some okButton)
          visibleState = some (s', evs) ∧
        selectEvents evs
          = [DialogEvent.select okButton.name
              (bsOkCancel.get okButton.name)] ∧
        (s'.visible = false
          ↔ (fun _ => false)
              (DialogEvent.select okButton.name
                (bsOkCancel.get okButton.name)) = false) ∧
        ((fun _ => false)
            (DialogEvent.select okButton.name
              (bsOkCancel.get okButton.name)) = true →
          s' = visibleState)) :=
  ⟨⟨rfl, rfl, rfl, rfl⟩,
   c1_button_click false (fun _ => false) okButton bsOkCancel visibleState
     rfl rfl rfl rfl⟩

/-- The dialog of `sNoDefault` (no cancel key registered) while visible. -/
def sVisNoCancel : DialogState :=
  { sNoDefault with visible := true, keydownListener := true,
                    resizeListener := true, clickListener := true }

/-- An enabled SELECT element as keydown target. -/
def selectTargetEl : EventTarget :=
  { tagName := "SELECT", disabled := false, name := "", isDialogRoot := false }

/-- C2 counterexample: on a visible dialog with no registered cancel key and
focus on an enabled SELECT element, Escape does not hide the dialog (the
special-form-element test of lines 1104-1105 guards the unconditional-hide
branch at line 1114 too), contradicting the claim that Escape hides
unconditionally when no cancel key is registered. -/
theorem c2_counterexample :
    ¬ ((Dialog.onKeyDown false (fun _ => false) Key.esc false selectTargetEl
          sVisNoCancel).map (fun p => p.1.visible) = some false) := by
  decide

/-- C2 amended: for a visible, rendered dialog with a button set, Escape
triggers the cancel button's action (one SELECT event with the cancel key and
its caption, hiding exactly when no listener cancels) when a non-empty cancel
key is registered and focus is not on an enabled select control; when the
cancel key is unregistered (or empty, which the source treats as absent) and
focus is not on an enabled select control, Escape hides the dialog without
dispatching any SELECT event; when focus is on an enabled select control,
Escape does nothing at all, whether or not a cancel key is registered. -/
theorem c2_escape (g : Bool) (c : DialogEvent → Bool) (sh : Bool)
    (t : EventTarget) (s : DialogState) (bs : ButtonSet)
    (hv : s.visible = true) (hd : s.inDocument = true)
    (hb : s.buttons = some bs) :
    (∀ ck, bs.getCancel = some ck → ck ≠ "" → isSpecialEsc t = false →
        ∃ s' evs, Dialog.onKeyDown g c Key.esc sh t s = some (s', evs) ∧
          selectEvents evs = [DialogEvent.select ck (bs.get ck)] ∧
          (s'.visible = false
            ↔ c (DialogEvent.select ck (bs.get ck)) = false)) ∧
    (keyTruthy bs.getCancel = false → isSpecialEsc t = false →
        ∃ s' evs, Dialog.onKeyDown g c Key.esc sh t s = some (s', evs) ∧
          selectEvents evs = [] ∧ s'.visible = false) ∧
    (isSpecialEsc t = true →
        Dialog.onKeyDown g c Key.esc sh t s = some (s, [])) := by
  refine ⟨?_, ?_, ?_⟩
  · intro ck hck hne hsp
    unfold Dialog.onKeyDown
    have hkt : keyTruthy (some ck) = true := by simp [keyTruthy, hne]
    simp only [hb, hck, hsp, hkt, Bool.not_false, Bool.and_true, if_true,
      Option.getD_some]
    cases hc : c (DialogEvent.select ck (bs.get ck)) with
    | false =>
      simp only [hc, Bool.not_false, if_true]
      refine ⟨(Dialog.setVisible g c false s).1, _, rfl, ?_, ?_⟩
      · rw [setVisible_hide_snd g c s hv hd]
        simp [selectEvents, isSelect]
      · simp [setVisible_hide_fst_visible g c s hv hd]
    | true =>
      simp only [hc, Bool.not_true, if_false]
      exact ⟨s, [DialogEvent.select ck (bs.get ck)], rfl,
        by simp [selectEvents, isSelect], by simp [hv, hc]⟩
  · intro hkf hsp
    unfold Dialog.onKeyDown
    simp only [hb, hkf, hsp, Bool.not_false, Bool.false_and, if_false,
      if_true]
    refine ⟨(Dialog.setVisible g c false s).1,
      (Dialog.setVisible g c false s).2, rfl, ?_, ?_⟩
    · rw [setVisible_hide_snd g c s hv hd]
      simp [selectEvents, isSelect]
    · exact setVisible_hide_fst_visible g c s hv hd
  · intro hsp
    unfold Dialog.onKeyDown
    simp [hb, hsp]

/-- A keydown target that is neither a button nor a form control. -/
def plainTarget : EventTarget :=
  { tagName := "DIV", disabled := false, name := "", isDialogRoot := false }

/-- Witness for the amended C2 theorem at a concrete input: the OK/Cancel
dialog with focus on a plain element, canceler canceling nothing. -/
theorem c2_witness :
    (visibleState.visible = true ∧ visibleState.inDocument = true ∧
      visibleState.buttons = some bsOkCancel ∧
      bsOkCancel.getCancel = some "cancel" ∧
      isSpecialEsc plainTarget = false) ∧
    (∃ s' evs,
      Dialog.onKeyDown false (fun _ => false) Key.esc false plainTarget
          visibleState = some (s', evs) ∧
        selectEvents evs
          = [DialogEvent.select "cancel" (bsOkCancel.get "cancel")] ∧
        (s'.visible = false
          ↔ (fun _ => false)
              (DialogEvent.select "cancel" (bsOkCancel.get "cancel"))
            = false)) :=
  ⟨⟨rfl, rfl, rfl, rfl, rfl⟩,
   (c2_escape false (fun _ => false) false plainTarget visibleState
       bsOkCancel rfl rfl rfl).1 "cancel" rfl (by decide) rfl⟩

theorem enterKey_button (t : EventTarget) (s : DialogState)
    (ht : t.tagName = "BUTTON") : Dialog.enterKey t s = some t.name := by
  simp [Dialog.enterKey, ht]

theorem enterKey_default_fires (t : EventTarget) (s : DialogState)
    (bs : ButtonSet) (dk : String) (db : DomButton)
    (hnt : t.tagName ≠ "BUTTON") (hb : s.buttons = some bs)
    (hdk : bs.getDefault = some dk) (hne : dk ≠ "")
    (hfind : getButtonIn s.domButtons dk = some db)
    (hen : db.disabled = false) (hsp : isSpecialEnter t = false) :
    Dialog.enterKey t s = some dk := by
  simp [Dialog.enterKey, hnt, hb, hdk, hne, hfind, hen, hsp]

theorem enterKey_default_disabled (t : EventTarget) (s : DialogState)
    (bs : ButtonSet) (dk : String) (db : DomButton)
    (hnt : t.tagName ≠ "BUTTON") (hb : s.buttons = some bs)
    (hdk : bs.getDefault = some dk)
    (hfind : getButtonIn s.domButtons dk = some db)
    (hdis : db.disabled = true) : Dialog.enterKey t s = none := by
  by_cases hne : dk = ""
  · subst hne
    simp [Dialog.enterKey, hnt, hb, hdk]
  · simp [Dialog.enterKey, hnt, hb, hdk, hne, hfind, hdis]

theorem enterKey_no_default (t : EventTarget) (s : DialogState)
    (bs : ButtonSet) (hnt : t.tagName ≠ "BUTTON") (hb : s.buttons = some bs)
    (hdk : bs.getDefault = none) : Dialog.enterKey t s = none := by
  simp [Dialog.enterKey, hnt, hb, hdk]

theorem enterKey_special (t : EventTarget) (s : DialogState)
    (hnt : t.tagName ≠ "BUTTON") (hsp : isSpecialEnter t = true) :
    Dialog.enterKey t s = none := by
  unfold Dialog.enterKey
  cases hbs : s.buttons with
  | none => simp [hnt]
  | some bs =>
    cases hdk : bs.getDefault with
    | none => simp [hnt, hdk]
    | some dk =>
      by_cases hne : dk = ""
      · subst hne
        simp [hnt, hdk]
      · cases hfind : getButtonIn s.domButtons dk with
        | none => simp [hnt, hdk, hne, hfind]
        | some db => simp [hnt, hdk, hne, hfind, hsp]

/-- A button element target whose name attribute is empty. -/
def emptyNameButton : EventTarget :=
  { tagName := "BUTTON", disabled := false, name := "", isDialogRoot := false }

/-- C3 counterexample: with focus on a button element whose name attribute is
empty, Enter dispatches no SELECT event and leaves the dialog visible (the
key picked up from `target.name` at line 1122 is the empty string, which the
truthiness test at line 1138 rejects), contradicting the claim that Enter
dispatches the focused button's selected event whenever focus is on a button
element. -/
theorem c3_counterexample :
    (Dialog.onKeyDown false (fun _ => false) Key.enter false emptyNameButton
        visibleState).map (fun p => selectEvents p.2) = some [] ∧
    (Dialog.onKeyDown false (fun _ => false) Key.enter false emptyNameButton
        visibleState).map (fun p => p.1.visible) = some true := by
  decide

/-- C3 amended: for a visible, rendered dialog with a button set, Enter
dispatches the SELECT event for the focused button when focus is on a button
element with a non-empty name (hiding exactly when no listener cancels);
when focus is not on a button element it dispatches the default button's
SELECT event only when the default key is non-empty, resolves to a rendered
button that is not disabled, and focus is not on an enabled textarea or
select; in particular Enter dispatches nothing when the default button is
disabled, when no default key is set, or when focus is on an enabled
textarea/select. -/
theorem c3_enter (g : Bool) (c : DialogEvent → Bool) (sh : Bool)
    (t : EventTarget) (s : DialogState) (bs : ButtonSet)
    (hv : s.visible = true) (hd : s.inDocument = true)
    (hb : s.buttons = some bs) :
    (t.tagName = "BUTTON" → t.name ≠ "" →
        ∃ s' evs, Dialog.onKeyDown g c Key.enter sh t s = some (s', evs) ∧
          selectEvents evs
            = [DialogEvent.select t.name
                (some (jsStringOfOpt (bs.get t.name)))] ∧
          (s'.visible = false
            ↔ c (DialogEvent.select t.name
                  (some (jsStringOfOpt (bs.get t.name)))) = false)) ∧
    (t.tagName ≠ "BUTTON" →
      (∀ dk db, bs.getDefault = some dk → dk ≠ "" →
          getButtonIn s.domButtons dk = some db → db.disabled = false →
          isSpecialEnter t = false →
          ∃ s' evs, Dialog.onKeyDown g c Key.enter sh t s = some (s', evs) ∧
            selectEvents evs
              = [DialogEvent.select dk
                  (some (jsStringOfOpt (bs.get dk)))] ∧
            (s'.visible = false
              ↔ c (DialogEvent.select dk
                    (some (jsStringOfOpt (bs.get dk)))) = false)) ∧
      (∀ dk db, bs.getDefault = some dk →
          getButtonIn s.domButtons dk = some db → db.disabled = true →
          Dialog.onKeyDown g c Key.enter sh t s = some (s, [])) ∧
      (bs.getDefault = none →
          Dialog.onKeyDown g c Key.enter sh t s = some (s, [])) ∧
      (isSpecialEnter t = true →
          Dialog.onKeyDown g c Key.enter sh t s = some (s, []))) := by
  constructor
  · intro ht hn
    unfold Dialog.onKeyDown
    have hek := enterKey_button t s ht
    have hkt : keyTruthy (some t.name) = true := by simp [keyTruthy, hn]
    simp only [hek, hkt, hb, if_true, Option.getD_some]
    cases hc : c (DialogEvent.select t.name
        (some (jsStringOfOpt (bs.get t.name)))) with
    | false =>
      simp only [hc, Bool.not_false, if_true]
      refine ⟨(Dialog.setVisible g c false s).1, _, rfl, ?_, ?_⟩
      · rw [setVisible_hide_snd g c s hv hd]
        simp [selectEvents, isSelect]
      · simp [setVisible_hide_fst_visible g c s hv hd]
    | true =>
      simp only [hc, Bool.not_true, if_false]
      exact ⟨s, [DialogEvent.select t.name
          (some (jsStringOfOpt (bs.get t.name)))], rfl,
        by simp [selectEvents, isSelect], by simp [hv, hc]⟩
  · intro hnt
    refine ⟨?_, ?_, ?_, ?_⟩
    · intro dk db hdk hne hfind hen hsp
      unfold Dialog.onKeyDown
      have hek := enterKey_default_fires t s bs dk db hnt hb hdk hne hfind
        hen hsp
      have hkt : keyTruthy (some dk) = true := by simp [keyTruthy, hne]
      simp only [hek, hkt, hb, if_true, Option.getD_some]
      cases hc : c (DialogEvent.select dk
          (some (jsStringOfOpt (bs.get dk)))) with
      | false =>
        simp only [hc, Bool.not_false, if_true]
        refine ⟨(Dialog.setVisible g c false s).1, _, rfl, ?_, ?_⟩
        · rw [setVisible_hide_snd g c s hv hd]
          simp [selectEvents, isSelect]
        · simp [setVisible_hide_fst_visible g c s hv hd]
      | true =>
        simp only [hc, Bool.not_true, if_false]
        exact ⟨s, [DialogEvent.select dk
            (some (jsStringOfOpt (bs.get dk)))], rfl,
          by simp [selectEvents, isSelect], by simp [hv, hc]⟩
    · intro dk db hdk hfind hdis
      unfold Dialog.onKeyDown
      have hek := enterKey_default_disabled t s bs dk db hnt hb hdk hfind
        hdis
      simp [hek, keyTruthy]
    · intro hdk
      unfold Dialog.onKeyDown
      have hek := enterKey_no_default t s bs hnt hb hdk
      simp [hek, keyTruthy]
    · intro hsp
      unfold Dialog.onKeyDown
      have hek := enterKey_special t s hnt hsp
      simp [hek, keyTruthy]

/-- Witness for the amended C3 theorem: Enter with focus on a plain element
fires the default "ok" button of the OK/Cancel dialog. -/
theorem c3_witness :
    (visibleState.visible = true ∧ visibleState.inDocument = true ∧
      visibleState.buttons = some bsOkCancel ∧
      plainTarget.tagName ≠ "BUTTON" ∧
      bsOkCancel.getDefault = some "ok" ∧
      getButtonIn visibleState.domButtons "ok" = some okButton ∧
      okButton.disabled = false ∧ isSpecialEnter plainTarget = false) ∧
    (∃ s' evs,
      Dialog.onKeyDown false (fun _ => false) Key.enter false plainTarget
          visibleState = some (s', evs) ∧
        selectEvents evs
          = [DialogEvent.select "ok"
              (some (jsStringOfOpt (bsOkCancel.get "ok")))] ∧
        (s'.visible = false
          ↔ (fun _ => false)
              (DialogEvent.select "ok"
                (some (jsStringOfOpt (bsOkCancel.get "ok")))) = false)) :=
  ⟨⟨rfl, rfl, rfl, by decide, rfl, by decide, rfl, by decide⟩,
   ((c3_enter false (fun _ => false) false plainTarget visibleState
       bsOkCancel rfl rfl rfl).2 (by decide)).1 "ok" okButton rfl
     (by decide) (by decide) rfl (by decide)⟩

end GoogUi
